import Mathlib

/-!
# xsensors: startup configuration resolution (src/main.c)

A shallow embedding of `get_updatetime`, `load_config` and `main` of
`src/main.c`, and theorems about them.

## Conventions of the embedding

* A C `char` array is a `List Nat` of byte values.  A read past the end of the
  list yields the terminating NUL (`0`), and every string function stops at the
  first `0`, as the C functions do.
* The file-scope variables `tf`, `update_time`, `imagefile`, and the local
  `sens_config` of `main`, are fields of `State`; everything the process does to
  the outside (streams, files, the sensor library, GTK) is appended to
  `State.trace`.
* Everything the code obtains from outside the translation unit is a field of
  `World`: the build macros `PACKAGE` and `VERSION`, the signedness of `char`,
  `HOME`, the password-database entry, the file system, the results of `strdup`,
  `sensors_init`, `start_gui` and `fclose`.
* `getopt` is libc code; `main` is given the sequence of values that successive
  `getopt` calls return (option character and `optarg`) up to `EOF`.
* `atoi` is modelled as glibc implements it on LP64: `(int) strtol (s, NULL, 10)`.
* `strlen (home_dir)` is far below `2^31` (an environment string or a passwd
  field), so the `gsize` sum `temp_len` and its conversion to the `int` argument
  of `fgets` do not wrap; they are natural numbers here.
-/

namespace Xsensors

/-! ## C strings -/

/-- Byte values of an ASCII literal. -/
def bytes (s : String) : List Nat := s.toList.map Char.toNat

/-- The C string stored at the start of a char array: the bytes before the first NUL. -/
def cstr (s : List Nat) : List Nat := s.takeWhile (fun c => c != 0)

/-- C `strlen`. -/
def strlen (s : List Nat) : Nat := (cstr s).length

/-- The byte `s[i]`; the terminator when `i` is the end of the list. -/
def char_at (s : List Nat) (i : Nat) : Nat := s.getD i 0

/-- Value of a byte read through the type `char`: on a platform where `char` is
signed, the bytes 128..255 are negative. -/
def char_val (char_signed : Bool) (b : Nat) : Int :=
  if char_signed && decide (128 ≤ b) then (b : Int) - 256 else (b : Int)

/-- C `strncmp (a, b, n)`: difference of the first pair of differing bytes (as
`unsigned char`) among the first `n`, stopping after a NUL. -/
def strncmp : Nat → List Nat → List Nat → Int
  | 0, _, _ => 0
  | n + 1, a, b =>
    if a.headD 0 ≠ b.headD 0 then (a.headD 0 : Int) - (b.headD 0 : Int)
    else if a.headD 0 = 0 then 0
    else strncmp n a.tail b.tail

/-- C `isspace` in the "C" locale: space, and `\t \n \v \f \r`. -/
def isspace (c : Nat) : Bool := c == 32 || (decide (9 ≤ c) && decide (c ≤ 13))

/-- C `isdigit`. -/
def isdigit (c : Nat) : Bool := decide (48 ≤ c) && decide (c ≤ 57)

/-- Value of the leading run of decimal digits of `s`, continuing from `acc`. -/
def digits_value : Nat → List Nat → Nat
  | acc, [] => acc
  | acc, c :: rest => if isdigit c then digits_value (acc * 10 + (c - 48)) rest else acc

def LONG_MAX : Int := 2 ^ 63 - 1
def LONG_MIN : Int := -(2 ^ 63)

/-- C `strtol (s, NULL, 10)` with a 64-bit `long`: skip white space, take an
optional sign, convert the digits that follow, saturate at the limits of `long`. -/
def strtol (s : List Nat) : Int :=
  match s.dropWhile isspace with
  | 45 :: r => max LONG_MIN (-(digits_value 0 r : Int))
  | 43 :: r => min LONG_MAX (digits_value 0 r : Int)
  | r => min LONG_MAX (digits_value 0 r : Int)

/-- Conversion of a `long` to `int` (32 bits, two's complement). -/
def long_to_int (x : Int) : Int := (x + 2 ^ 31) % 2 ^ 32 - 2 ^ 31

/-- C `atoi`. -/
def atoi (s : List Nat) : Int := long_to_int (strtol s)

/-! ## get_updatetime (main.c lines 35-52) -/

/-- The anonymous enum of line 35. -/
inductive UpdateTimeResult
  | UPDATE_TIME_SUCCESS
  | UPDATE_TIME_NAN
  | UPDATE_TIME_NEG
  deriving DecidableEq, Repr

open UpdateTimeResult

/-- The test of line 40: `temp_str[0] == '0' && temp_str[1] < '0'`. -/
def explicit_zero (char_signed : Bool) (temp_str : List Nat) : Bool :=
  char_at temp_str 0 == 48 && decide (char_val char_signed (char_at temp_str 1) < 48)

/-- Function `get_updatetime`: the returned code, and the value of the global
`update_time` afterwards, given its value `update_time` before. -/
def get_updatetime (char_signed : Bool) (temp_str : List Nat) (update_time : Int) :
    UpdateTimeResult × Int :=
  if explicit_zero char_signed temp_str then
    (UPDATE_TIME_SUCCESS, 0)
  else
    let temp := atoi temp_str
    if temp = 0 then (UPDATE_TIME_NAN, update_time)
    else if temp < 0 then (UPDATE_TIME_NEG, update_time)
    else (UPDATE_TIME_SUCCESS, temp)

/-! ## Process state, trace and environment -/

/-- The two `FILE *` variables of the program. -/
inductive FileVar
  | fileconf
  | sens_conf_file
  deriving DecidableEq, Repr

/-- What the process does to the outside, in program order. -/
inductive Event
  | stderr (msg : List Nat)
  | stdout (msg : List Nat)
  | fopen (f : FileVar) (path : List Nat) (opened : Bool)
  | fclose (f : FileVar)
  | sensors_init (conf : Option (List Nat))
  | gtk_init
  | gtk_dialog_run (msg : List Nat)
  | start_gui
  | sensors_cleanup
  deriving DecidableEq, Repr

/-- The file-scope variables `tf`, `update_time`, `imagefile`, the local
`sens_config` of `main`, and the trace of the run so far. -/
structure State where
  tf : Bool
  update_time : Int
  imagefile : Option (List Nat)
  sens_config : Option (List Nat)
  trace : List Event
  deriving DecidableEq, Repr

/-- The initialisers of lines 30-32 and 132. -/
def State.init : State :=
  { tf := false, update_time := 1, imagefile := none, sens_config := none, trace := [] }

/-- Append an event to the trace. -/
def State.emit (st : State) (e : Event) : State :=
  { st with trace := st.trace ++ [e] }

/-- Everything `main.c` takes from outside the translation unit. -/
structure World where
  /-- whether plain `char` is signed on the platform -/
  char_signed : Bool
  /-- the build macro `PACKAGE` (a string literal) -/
  PACKAGE : List Nat
  /-- the build macro `VERSION` (a string literal) -/
  VERSION : List Nat
  /-- result of `getenv ("HOME")`; `none` is `NULL` -/
  HOME : Option (List Nat)
  /-- field `pw_dir` of `getpwuid (getuid ())`; `none` when the lookup returns `NULL` -/
  pw_dir : Option (List Nat)
  /-- the file system: contents of the file a path opens for reading, `none` when
  `fopen (path, "r")` returns `NULL` -/
  files : List Nat → Option (List Nat)
  /-- whether the `strdup` in the iteration of the option loop with this index succeeds -/
  strdup_ok : Nat → Bool
  /-- return value of `sensors_init`, given the contents of the file handed to it -/
  sensors_init : Option (List Nat) → Int
  /-- return value of `start_gui` -/
  start_gui : Int
  /-- return value of `fclose (sens_conf_file)` -/
  fclose : Int

/-- Modelled from the spec: the macro `SUCCESS` of `main.h`, which is not among the
sources; section 4.4 calls every non-zero code of the sensor initialiser an error,
and line 227 compares the result of `fclose` with it, so it is `0`. -/
def SUCCESS : Int := 0

def EXIT_SUCCESS : Int := 0
def EXIT_FAILURE : Int := 1

/-! ## load_config (main.c lines 73-126) -/

/-- The value of `temp_len`, lines 78-79:
`strlen (home_dir) + sizeof (PACKAGE) + sizeof ("/.local/share/config.ini")`. -/
def temp_len (home_dir PACKAGE : List Nat) : Nat :=
  strlen home_dir + (PACKAGE.length + 1) + ((bytes "/.local/share/config.ini").length + 1)

/-- The characters that `sprintf (temp_str, "%s/.local/share/%s/custom.ini",
home_dir, PACKAGE)` stores before the terminating NUL, lines 87-88. -/
def custom_ini_path (home_dir PACKAGE : List Nat) : List Nat :=
  cstr home_dir ++ bytes "/.local/share/" ++ cstr PACKAGE ++ bytes "/custom.ini"

/-- The characters one `fgets` call stores when it may store at most `k` of them:
it stops after a newline, at end of file, or when `k` characters are stored. -/
def fgets_chars : Nat → List Nat → List Nat
  | 0, _ => []
  | _, [] => []
  | k + 1, c :: rest => if c = 10 then [c] else c :: fgets_chars k rest

/-- C `fgets (buf, n, stream)` on the unread rest of a stream: `none` is `NULL`
(end of file before any character, or `n < 1`); otherwise the characters stored
in `buf` before the NUL, and the rest of the stream. -/
def fgets (n : Nat) (stream : List Nat) : Option (List Nat × List Nat) :=
  if n = 0 ∨ stream = [] then none
  else some (fgets_chars (n - 1) stream, stream.drop (fgets_chars (n - 1) stream).length)

def WARN_FAHRENHEIT : List Nat :=
  bytes "Warning: invalid custom.ini entry!\nuse_fahrenheit can only have a value of 0 or 1.\n"

def WARN_UPDATE_TIME_NAN : List Nat :=
  bytes "Warning: invalid custom.ini entry!\nupdate_time does not appear to be a valid number.\n"

def WARN_UPDATE_TIME_NEG : List Nat :=
  bytes "Warning: invalid custom.ini entry!\nupdate_time should be a positive number.\n"

/-- The body of the `while` loop, lines 99-121, on the buffer `temp_str` that
`fgets` filled. -/
def load_config_line (char_signed : Bool) (temp_str : List Nat) (st : State) : State :=
  if char_at temp_str 0 ≠ 91 ∧ char_at temp_str 0 ≠ 59 then
    if strlen temp_str > 15 ∧ strncmp 15 temp_str (bytes "use_fahrenheit=") = 0 then
      if char_at temp_str 15 = 49 then { st with tf := true }
      else if char_at temp_str 15 ≠ 48 then st.emit (Event.stderr WARN_FAHRENHEIT)
      else st
    else if strlen temp_str > 12 ∧ strncmp 12 temp_str (bytes "update_time=") = 0 then
      match get_updatetime char_signed (temp_str.drop 12) st.update_time with
      | (UPDATE_TIME_NAN, u) =>
        { st with update_time := u }.emit (Event.stderr WARN_UPDATE_TIME_NAN)
      | (UPDATE_TIME_NEG, u) =>
        { st with update_time := u }.emit (Event.stderr WARN_UPDATE_TIME_NEG)
      | (UPDATE_TIME_SUCCESS, u) => { st with update_time := u }
    else st
  else st

/-- The loop `while (fgets (temp_str, temp_len, fileconf) != NULL)`, lines 98-122,
for at most `fuel` iterations. -/
def load_config_loop (char_signed : Bool) (n : Nat) : Nat → List Nat → State → State
  | 0, _, st => st
  | fuel + 1, stream, st =>
    match fgets n stream with
    | none => st
    | some (temp_str, rest) =>
      load_config_loop char_signed n fuel rest (load_config_line char_signed temp_str st)

/-- Function `load_config`.  `g_malloc` does not return `NULL` (it aborts the
process instead), so the branch of lines 82-85 is not taken.  Every iteration of
the loop reads at least one character (`temp_len` is at least 26), so
`contents.length + 1` iterations reach the end of the file. -/
def load_config (W : World) (home_dir : List Nat) (st : State) : State :=
  let path := custom_ini_path home_dir W.PACKAGE
  match W.files path with
  | none => st.emit (Event.fopen FileVar.fileconf path false)
  | some contents =>
    (load_config_loop W.char_signed (temp_len home_dir W.PACKAGE) (contents.length + 1) contents
      (st.emit (Event.fopen FileVar.fileconf path true))).emit (Event.fclose FileVar.fileconf)

/-! ## main (main.c lines 54-71 and 128-233) -/

/-- One return of `getopt (argc, argv, "fhc:i:t:v")` other than `EOF`: the option
character returned, and `optarg` after the call. -/
structure GetoptResult where
  c : Nat
  optarg : List Nat
  deriving DecidableEq, Repr

/-- How a piece of `main` ends: control runs on to the next statement, `main`
returns a status, or the behaviour is undefined (a null pointer is dereferenced). -/
inductive Control
  | running (st : State)
  | returned (status : Int) (st : State)
  | crashed (st : State)
  deriving DecidableEq, Repr

def HELP_TEXT : List Nat :=
  bytes ("\nUsage: xsensors [options]\n\n" ++ "Options:\n" ++ "--------\n\n" ++
    "-f\t\tDisplay all temperatures in Fahrenheit.\n" ++
    "-h\t\tDisplay this help text and exit.\n" ++
    "-c filename\tSpecify the libsensors configuration file.\n" ++
    "-i filename\tSpecify the image file to use as a theme.\n" ++
    "-t time\t\tSpecify the update time in number of seconds.\n" ++
    "\t\tSet this to a negative number for default time.\n" ++
    "\t\tSet this to zero for no update.\n" ++
    "-v\t\tDisplay version number.\n" ++ "\n")

/-- Function `help_msg`: prints the usage text and returns `SUCCESS`. -/
def help_msg (st : State) : Int × State := (SUCCESS, st.emit (Event.stdout HELP_TEXT))

def STRDUP_FAILED : List Nat := bytes "strdup failed! Something is very wrong!\n"

def WARN_OPT_NAN : List Nat :=
  bytes "Warning!!\nSpecified update time does not appear to be a valid number\n"

/-- The `switch (c)` of lines 143-178 for one return `r` of `getopt`, in the
iteration with index `i` of the option loop. -/
def main_switch (W : World) (i : Nat) (r : GetoptResult) (st : State) : Control :=
  if r.c = 102 then Control.running { st with tf := true }
  else if r.c = 104 then
    if (help_msg st).1 = SUCCESS then Control.returned EXIT_SUCCESS (help_msg st).2
    else Control.returned EXIT_FAILURE (help_msg st).2
  else if r.c = 99 then
    if W.strdup_ok i then Control.running { st with sens_config := some (cstr r.optarg) }
    else Control.running ({ st with sens_config := none }.emit (Event.stderr STRDUP_FAILED))
  else if r.c = 105 then
    if W.strdup_ok i then Control.running { st with imagefile := some (cstr r.optarg) }
    else Control.running ({ st with imagefile := none }.emit (Event.stderr STRDUP_FAILED))
  else if r.c = 116 then
    if W.strdup_ok i then
      match get_updatetime W.char_signed (cstr r.optarg) st.update_time with
      | (UPDATE_TIME_NAN, u) =>
        Control.running ({ st with update_time := u }.emit (Event.stderr WARN_OPT_NAN))
      | (_, u) => Control.running { st with update_time := u }
    else
      -- line 166 passes the null `temp_str` to `get_updatetime`, which reads `temp_str[0]`
      Control.crashed (st.emit (Event.stderr STRDUP_FAILED))
  else if r.c = 118 then
    Control.returned EXIT_SUCCESS
      (st.emit (Event.stdout (bytes "\nXsensors version " ++ cstr W.VERSION ++ bytes "\n\n")))
  else if r.c = 63 then Control.returned EXIT_FAILURE st
  else Control.returned EXIT_FAILURE (st.emit (Event.stderr (bytes "Something has gone wrong!\n")))

/-- The option loop of lines 142-179 over the remaining returns of `getopt`;
`i` is the index of the next iteration.  The empty list is `getopt` returning `EOF`. -/
def getopt_loop (W : World) : Nat → List GetoptResult → State → Control
  | _, [], st => Control.running st
  | i, r :: rest, st =>
    match main_switch W i r st with
    | Control.running st1 => getopt_loop W (i + 1) rest st1
    | Control.returned status st1 => Control.returned status st1
    | Control.crashed st1 => Control.crashed st1

/-- Lines 137-138: `home_dir` from `HOME`, else from the password database;
`none` when both are `NULL` (line 138 then dereferences a null pointer). -/
def resolve_home_dir (W : World) : Option (List Nat) :=
  match W.HOME with
  | some h => some h
  | none => W.pw_dir

def SENSORS_INIT_FAILED (errorno : Int) : List Nat :=
  bytes "Could not initialize sensors!\nIs everything installed properly?\nError Number: " ++
    bytes (toString errorno)

def SENSORS_INIT_DIALOG (errorno : Int) : List Nat :=
  bytes "Could not initialize sensors!\n\nIs everything installed properly?\nError Number: " ++
    bytes (toString errorno)

/-- Lines 192-232: sensor initialisation, GUI and teardown, with `sens_conf_file`
the contents of the opened sensor configuration file (`none` is the null handle).
The calls of `free` leave the modelled state as it is. -/
def main_sensors (W : World) (sens_conf_file : Option (List Nat)) (st : State) : Control :=
  -- lines 193-209
  let errorno := W.sensors_init sens_conf_file
  let st1 := st.emit (Event.sensors_init sens_conf_file)
  if errorno ≠ SUCCESS then
    let st2 := st1.emit (Event.stderr (SENSORS_INIT_FAILED errorno))
    if st.sens_config.isNone then
      Control.returned EXIT_FAILURE
        ((st2.emit Event.gtk_init).emit (Event.gtk_dialog_run (SENSORS_INIT_DIALOG errorno)))
    else Control.returned EXIT_FAILURE st2
  else
    -- lines 215-220
    let st2 := st1.emit Event.start_gui
    let st3 := if W.start_gui ≠ SUCCESS then st2.emit (Event.stderr (bytes "GUI failed!\n")) else st2
    let st4 := st3.emit Event.sensors_cleanup
    -- lines 226-232
    if sens_conf_file.isSome then
      if W.fclose ≠ SUCCESS then
        Control.returned EXIT_FAILURE
          ((st4.emit (Event.fclose FileVar.sens_conf_file)).emit
            (Event.stderr (bytes "Something has gone wrong closing the config file!\n")))
      else Control.returned EXIT_SUCCESS (st4.emit (Event.fclose FileVar.sens_conf_file))
    else Control.returned EXIT_SUCCESS st4

/-- Lines 184-232: what `main` does after the option loop has ended in state `st`. -/
def main_startup (W : World) (st : State) : Control :=
  match st.sens_config with
  | none => main_sensors W none st
  | some path =>
    match W.files path with
    | none =>
      Control.returned EXIT_FAILURE
        ((st.emit (Event.fopen FileVar.sens_conf_file path false)).emit
          (Event.stderr (bytes "Error opening config file: " ++ path ++ bytes "\n")))
    | some contents =>
      main_sensors W (some contents) (st.emit (Event.fopen FileVar.sens_conf_file path true))

/-- Function `main`, on the returns `opts` of the successive `getopt` calls. -/
def main (W : World) (opts : List GetoptResult) : Control :=
  match resolve_home_dir W with
  | none => Control.crashed State.init
  | some home_dir =>
    match getopt_loop W 0 opts (load_config W home_dir State.init) with
    | Control.running st => main_startup W st
    | Control.returned status st => Control.returned status st
    | Control.crashed st => Control.crashed st

/-! ## Observations on runs, and a sample machine -/

/-- The status `main` returned; `none` when it did not return. -/
def Control.status : Control → Option Int
  | Control.running _ => none
  | Control.returned status _ => some status
  | Control.crashed _ => none

/-- The state in which a piece of `main` ended. -/
def Control.state : Control → State
  | Control.running st => st
  | Control.returned _ st => st
  | Control.crashed st => st

/-- The buffers that the successive `fgets` calls of the loop of `load_config`
deliver, for at most `fuel` calls. -/
def fgets_lines (n : Nat) : Nat → List Nat → List (List Nat)
  | 0, _ => []
  | fuel + 1, stream =>
    match fgets n stream with
    | none => []
    | some (temp_str, rest) => temp_str :: fgets_lines n fuel rest

/-- The calls that start the sensor library or the GUI toolkit. -/
def Event.is_startup : Event → Bool
  | Event.sensors_init _ => true
  | Event.gtk_init => true
  | Event.gtk_dialog_run _ => true
  | Event.start_gui => true
  | _ => false

/-- The startup calls made so far. -/
def startup_calls (st : State) : List Event := st.trace.filter Event.is_startup

/-- A text written as a decimal integer: an optional minus sign followed by one
or more digits. -/
def is_decimal_integer (text : List Nat) : Bool :=
  match text with
  | 45 :: ds => !ds.isEmpty && ds.all isdigit
  | ds => !ds.isEmpty && ds.all isdigit

/-- A machine on which `char` is signed, the package is built as "xsensors",
`HOME` is "/root", the persisted configuration file has the given contents
(`none`: it cannot be opened), the sensor configuration "/etc/sensors3.conf" has
the given contents, and the collaborators return the given codes. -/
def sample_world (custom_ini sensors_conf : Option (List Nat))
    (sensors_init_code : Int) : World :=
  { char_signed := true
    PACKAGE := bytes "xsensors"
    VERSION := bytes "0.80"
    HOME := some (bytes "/root")
    pw_dir := none
    files := fun path =>
      if path = bytes "/root/.local/share/xsensors/custom.ini" then custom_ini
      else if path = bytes "/etc/sensors3.conf" then sensors_conf
      else none
    strdup_ok := fun _ => true
    sensors_init := fun _ => sensors_init_code
    start_gui := 0
    fclose := 0 }

/-! ## Lemmas on the string functions -/

theorem bytes_update_time :
    bytes "update_time=" = [117, 112, 100, 97, 116, 101, 95, 116, 105, 109, 101, 61] := by
  decide

theorem bytes_use_fahrenheit :
    bytes "use_fahrenheit=" =
      [117, 115, 101, 95, 102, 97, 104, 114, 101, 110, 104, 101, 105, 116, 61] := by
  decide

/-- A text that starts with `'0'` followed by a byte that is no digit converts to 0. -/
theorem atoi_zero_then_nondigit (text : List Nat) (h0 : char_at text 0 = 48)
    (h1 : isdigit (char_at text 1) = false) : atoi text = 0 := by
  match text with
  | [] => simp [char_at] at h0
  | [c] =>
    simp [char_at] at h0
    subst h0
    decide
  | c :: d :: r =>
    simp [char_at] at h0 h1
    subst h0
    have hs : isspace 48 = false := by decide
    have hd : isdigit 48 = true := by decide
    simp [atoi, strtol, List.dropWhile, hs, digits_value, hd, h1, LONG_MAX, long_to_int]

theorem digits_value_append_newline (acc : Nat) (r : List Nat) :
    digits_value acc (r ++ [10]) = digits_value acc r := by
  induction r generalizing acc with
  | nil => simp [digits_value, isdigit]
  | cons c r ih =>
    simp only [List.cons_append, digits_value]
    split
    · exact ih _
    · rfl

theorem strtol_of_space (c : Nat) (r : List Nat) (h : isspace c = true) :
    strtol (c :: r) = strtol r := by
  simp [strtol, List.dropWhile, h]

theorem strtol_of_nonspace (c : Nat) (r : List Nat) (h : isspace c = false) :
    strtol (c :: r) =
      if c = 45 then max LONG_MIN (-(digits_value 0 r : Int))
      else if c = 43 then min LONG_MAX (digits_value 0 r : Int)
      else min LONG_MAX (digits_value 0 (c :: r) : Int) := by
  simp only [strtol, List.dropWhile, h]
  split <;> simp_all

/-- The newline that `fgets` leaves at the end of a line does not change the
value `strtol` converts. -/
theorem strtol_append_newline (text : List Nat) : strtol (text ++ [10]) = strtol text := by
  induction text with
  | nil => decide
  | cons c r ih =>
    cases h : isspace c with
    | true => rw [List.cons_append, strtol_of_space c _ h, strtol_of_space c _ h, ih]
    | false =>
      rw [List.cons_append, strtol_of_nonspace c _ h, strtol_of_nonspace c _ h,
        digits_value_append_newline, ← List.cons_append, digits_value_append_newline]

theorem explicit_zero_append_newline (cs : Bool) (text : List Nat) :
    explicit_zero cs (text ++ [10]) = explicit_zero cs text := by
  match text with
  | [] => simp [explicit_zero, char_at]
  | [c] => cases cs <;> simp [explicit_zero, char_at, char_val]
  | c :: d :: r => simp [explicit_zero, char_at]

/-- Function `get_updatetime` gives the same result on a text and on the text
followed by a newline. -/
theorem get_updatetime_append_newline (cs : Bool) (text : List Nat) (u : Int) :
    get_updatetime cs (text ++ [10]) u = get_updatetime cs text u := by
  simp only [get_updatetime, explicit_zero_append_newline, atoi, strtol_append_newline]

/-- A call of `get_updatetime` that does not return `UPDATE_TIME_SUCCESS` leaves
`update_time` as it was. -/
theorem get_updatetime_rejected_keeps (cs : Bool) (text : List Nat) (u : Int)
    (h : (get_updatetime cs text u).1 ≠ UPDATE_TIME_SUCCESS) :
    (get_updatetime cs text u).2 = u := by
  simp only [get_updatetime] at h ⊢
  by_cases hz : explicit_zero cs text = true
  · simp [hz] at h
  · by_cases h0 : atoi text = 0
    · simp [hz, h0]
    · by_cases h1 : atoi text < 0
      · simp [hz, h0, h1]
      · simp [hz, h0, h1] at h

theorem digits_value_cstr (acc : Nat) (s : List Nat) :
    digits_value acc (cstr s) = digits_value acc s := by
  induction s generalizing acc with
  | nil => rfl
  | cons c r ih =>
    by_cases hc : c = 0
    · subst hc
      simp [cstr, List.takeWhile, digits_value, isdigit]
    · have hc1 : (c != 0) = true := by simpa using hc
      have hcs : cstr (c :: r) = c :: cstr r := by simp [cstr, List.takeWhile, hc1]
      rw [hcs]
      simp only [digits_value]
      split
      · exact ih _
      · rfl

theorem strtol_cstr (s : List Nat) : strtol (cstr s) = strtol s := by
  induction s with
  | nil => rfl
  | cons c r ih =>
    by_cases hc : c = 0
    · subst hc
      have h0 : cstr (0 :: r) = [] := by simp [cstr, List.takeWhile]
      rw [h0, strtol_of_nonspace 0 r (by decide)]
      simp [strtol, List.dropWhile, digits_value, isdigit]
    · have hc1 : (c != 0) = true := by simpa using hc
      have hcs : cstr (c :: r) = c :: cstr r := by simp [cstr, List.takeWhile, hc1]
      cases h : isspace c with
      | true => rw [hcs, strtol_of_space c _ h, strtol_of_space c _ h, ih]
      | false =>
        rw [hcs, strtol_of_nonspace c _ h, strtol_of_nonspace c _ h, digits_value_cstr,
          ← hcs, digits_value_cstr]

theorem explicit_zero_cstr (cs : Bool) (s : List Nat) :
    explicit_zero cs (cstr s) = explicit_zero cs s := by
  match s with
  | [] => rfl
  | [c] =>
    by_cases hc : c = 0
    · subst hc
      simp [explicit_zero, cstr, List.takeWhile, char_at]
    · have hc1 : (c != 0) = true := by simpa using hc
      simp [explicit_zero, cstr, List.takeWhile, char_at, hc1]
  | c :: d :: r =>
    by_cases hc : c = 0
    · subst hc
      simp [explicit_zero, cstr, List.takeWhile, char_at]
    · have hc1 : (c != 0) = true := by simpa using hc
      by_cases hd : d = 0
      · subst hd
        simp [explicit_zero, cstr, List.takeWhile, char_at, hc1]
      · have hd1 : (d != 0) = true := by simpa using hd
        simp [explicit_zero, cstr, List.takeWhile, char_at, hc1, hd1]

/-- The copy that `strdup` makes (the bytes before the first NUL) is parsed like
the array it was copied from. -/
theorem get_updatetime_cstr (cs : Bool) (s : List Nat) (u : Int) :
    get_updatetime cs (cstr s) u = get_updatetime cs s u := by
  simp only [get_updatetime, explicit_zero_cstr, atoi, strtol_cstr]

/-- A text that `get_updatetime` accepts with value `v` for one prior value of
`update_time` is accepted with value `v` for every prior value. -/
theorem get_updatetime_accepts_any_prior (cs : Bool) (text : List Nat) (u u1 v : Int)
    (h : get_updatetime cs text u = (UPDATE_TIME_SUCCESS, v)) :
    get_updatetime cs text u1 = (UPDATE_TIME_SUCCESS, v) := by
  simp only [get_updatetime] at h ⊢
  by_cases hz : explicit_zero cs text = true
  · simpa [hz] using h
  · by_cases h0 : atoi text = 0
    · simp [hz, h0] at h
    · by_cases h1 : atoi text < 0
      · simp [hz, h0, h1] at h
      · simpa [hz, h0, h1] using h

/-! ## C1, C2: the interval parser -/

/-- C1: a text that fails the explicit-zero test of line 40 (in particular a text
that does not start with `'0'` followed by a non-digit, the rule as the
specification words it) is classified by its `atoi` value: `0` gives
`UPDATE_TIME_NAN` and a negative value gives `UPDATE_TIME_NEG`, both leaving
`update_time` as it was; a positive value gives `UPDATE_TIME_SUCCESS` and is
stored in `update_time`. -/
theorem get_updatetime_classifies_by_atoi (cs : Bool) (text : List Nat) (update_time : Int)
    (h : explicit_zero cs text = false ∨
      ¬ (char_at text 0 = 48 ∧ isdigit (char_at text 1) = false)) :
    (atoi text = 0 → get_updatetime cs text update_time = (UPDATE_TIME_NAN, update_time)) ∧
    (atoi text < 0 → get_updatetime cs text update_time = (UPDATE_TIME_NEG, update_time)) ∧
    (0 < atoi text →
      get_updatetime cs text update_time = (UPDATE_TIME_SUCCESS, atoi text)) := by
  have hz : explicit_zero cs text = false := by
    rcases h with h | h
    · exact h
    · cases hez : explicit_zero cs text with
      | false => rfl
      | true =>
        exfalso
        apply h
        simp only [explicit_zero, Bool.and_eq_true, beq_iff_eq, decide_eq_true_eq] at hez
        refine ⟨hez.1, ?_⟩
        have h2 := hez.2
        simp only [isdigit, Bool.and_eq_false_imp, decide_eq_true_eq, decide_eq_false_iff_not]
        intro h48
        unfold char_val at h2
        split at h2
        · rename_i hs
          simp only [Bool.and_eq_true, decide_eq_true_eq] at hs
          omega
        · omega
  simp only [get_updatetime, hz]
  refine ⟨?_, ?_, ?_⟩
  · intro h0
    simp [h0]
  · intro hneg
    have : atoi text ≠ 0 := by omega
    simp [this, hneg]
  · intro hpos
    have h1 : atoi text ≠ 0 := by omega
    have h2 : ¬ atoi text < 0 := by omega
    simp [h1, h2]

/-- C1, at the texts of section 8: "42" is stored, "abc" and "" are
`UPDATE_TIME_NAN`, "-5" is `UPDATE_TIME_NEG`. -/
theorem get_updatetime_classifies_by_atoi_witness :
    get_updatetime true (bytes "42") 1 = (UPDATE_TIME_SUCCESS, 42) ∧
    get_updatetime true (bytes "abc") 1 = (UPDATE_TIME_NAN, 1) ∧
    get_updatetime true (bytes "") 1 = (UPDATE_TIME_NAN, 1) ∧
    get_updatetime true (bytes "-5") 1 = (UPDATE_TIME_NEG, 1) :=
  ⟨(get_updatetime_classifies_by_atoi true (bytes "42") 1 (Or.inl (by decide))).2.2 (by decide),
   (get_updatetime_classifies_by_atoi true (bytes "abc") 1 (Or.inr (by decide))).1 (by decide),
   (get_updatetime_classifies_by_atoi true (bytes "") 1 (Or.inr (by decide))).1 (by decide),
   (get_updatetime_classifies_by_atoi true (bytes "-5") 1 (Or.inl (by decide))).2.1 (by decide)⟩

/-- C2, refuted as stated: "0;" starts with `'0'` followed by a non-digit, and
`get_updatetime` returns `UPDATE_TIME_NAN` on it and leaves `update_time`
unchanged, whether `char` is signed or not. -/
theorem get_updatetime_zero_semicolon :
    char_at (bytes "0;") 0 = 48 ∧ isdigit (char_at (bytes "0;") 1) = false ∧
    get_updatetime true (bytes "0;") 1 = (UPDATE_TIME_NAN, 1) ∧
    get_updatetime false (bytes "0;") 1 = (UPDATE_TIME_NAN, 1) := by
  decide

/-- C2, amended: on a text whose first character is `'0'` and whose next
character is not a decimal digit, `get_updatetime` returns `UPDATE_TIME_SUCCESS`
and sets `update_time` to 0 when that next character compares below `'0'` as a
`char` (end of text, newline, space, the symbols coded below 48); on every other
such text it returns `UPDATE_TIME_NAN` and leaves `update_time` unchanged. -/
theorem get_updatetime_zero_then_nondigit (cs : Bool) (text : List Nat) (update_time : Int)
    (h0 : char_at text 0 = 48) (h1 : isdigit (char_at text 1) = false) :
    get_updatetime cs text update_time =
      if char_val cs (char_at text 1) < 48 then (UPDATE_TIME_SUCCESS, 0)
      else (UPDATE_TIME_NAN, update_time) := by
  by_cases hlt : char_val cs (char_at text 1) < 48
  · simp [get_updatetime, explicit_zero, h0, hlt]
  · simp [get_updatetime, explicit_zero, h0, hlt, atoi_zero_then_nondigit text h0 h1]

/-- C2, amended, at "0", "0 " and "0\n" (zero) and at "0;" (not a number). -/
theorem get_updatetime_zero_then_nondigit_witness :
    get_updatetime true (bytes "0") 7 = (UPDATE_TIME_SUCCESS, 0) ∧
    get_updatetime true (bytes "0 ") 7 = (UPDATE_TIME_SUCCESS, 0) ∧
    get_updatetime true (bytes "0\n") 7 = (UPDATE_TIME_SUCCESS, 0) ∧
    get_updatetime true (bytes "0;") 7 = (UPDATE_TIME_NAN, 7) :=
  ⟨(get_updatetime_zero_then_nondigit true (bytes "0") 7 (by decide) (by decide)).trans (by decide),
   (get_updatetime_zero_then_nondigit true (bytes "0 ") 7 (by decide) (by decide)).trans (by decide),
   (get_updatetime_zero_then_nondigit true (bytes "0\n") 7 (by decide) (by decide)).trans (by decide),
   (get_updatetime_zero_then_nondigit true (bytes "0;") 7 (by decide) (by decide)).trans (by decide)⟩

/-! ## C3: rejected `update_time=` lines -/

/-- The loop body on a buffer that holds `update_time=` and at least one more
character: the rest of the buffer goes to `get_updatetime`. -/
theorem load_config_line_update_time (cs : Bool) (rest : List Nat) (st : State)
    (hne : char_at rest 0 ≠ 0) :
    load_config_line cs (bytes "update_time=" ++ rest) st =
      match get_updatetime cs rest st.update_time with
      | (UPDATE_TIME_NAN, u) =>
        { st with update_time := u }.emit (Event.stderr WARN_UPDATE_TIME_NAN)
      | (UPDATE_TIME_NEG, u) =>
        { st with update_time := u }.emit (Event.stderr WARN_UPDATE_TIME_NEG)
      | (UPDATE_TIME_SUCCESS, u) => { st with update_time := u } := by
  match rest with
  | [] => simp [char_at] at hne
  | c :: r =>
    simp only [char_at, List.getD_cons_zero] at hne
    have hc : (c != 0) = true := by simpa using hne
    simp [load_config_line, bytes_update_time, bytes_use_fahrenheit, char_at, strlen, cstr,
      List.takeWhile, strncmp, hc]

/-- C3, refuted as stated: the interval parser reports `UPDATE_TIME_NAN` on the
empty text, and `load_config` on a file whose only line is `update_time=` with
nothing after it (no newline either) writes no warning: the trace holds the
opening and the closing of the file and nothing else. -/
theorem load_config_update_time_without_value :
    (get_updatetime true (bytes "") 1).1 = UPDATE_TIME_NAN ∧
    (load_config (sample_world (some (bytes "update_time=")) none 0) (bytes "/root")
        State.init).trace =
      [Event.fopen FileVar.fileconf (bytes "/root/.local/share/xsensors/custom.ini") true,
       Event.fclose FileVar.fileconf] := by
  decide

/-- C3, amended: when the buffer holds `update_time=<text>`, optionally ended by
the newline of the line, with at least one character after the `=`, and
`get_updatetime` reports `UPDATE_TIME_NAN` or `UPDATE_TIME_NEG` on the text,
the loop body of `load_config` changes nothing but the trace (so `tf` and
`update_time` keep their values) and appends exactly one warning to the error
stream; the two warnings differ. -/
theorem load_config_line_update_time_rejected (cs : Bool) (st : State) (text nl : List Nat)
    (hnl : nl = [] ∨ nl = [10]) (hne : char_at (text ++ nl) 0 ≠ 0)
    (hrej : (get_updatetime cs text st.update_time).1 = UPDATE_TIME_NAN ∨
      (get_updatetime cs text st.update_time).1 = UPDATE_TIME_NEG) :
    load_config_line cs (bytes "update_time=" ++ text ++ nl) st =
      st.emit (Event.stderr
        (if (get_updatetime cs text st.update_time).1 = UPDATE_TIME_NAN
          then WARN_UPDATE_TIME_NAN else WARN_UPDATE_TIME_NEG)) ∧
    WARN_UPDATE_TIME_NAN ≠ WARN_UPDATE_TIME_NEG := by
  refine ⟨?_, by decide⟩
  have hsame : get_updatetime cs (text ++ nl) st.update_time =
      get_updatetime cs text st.update_time := by
    rcases hnl with h | h
    · simp [h]
    · rw [h, get_updatetime_append_newline]
  rw [List.append_assoc, load_config_line_update_time cs _ st hne, hsame]
  have hkeep := get_updatetime_rejected_keeps cs text st.update_time
    (by rcases hrej with h | h <;> rw [h] <;> decide)
  rcases hrej with h | h
  · have hp : get_updatetime cs text st.update_time = (UPDATE_TIME_NAN, st.update_time) :=
      Prod.ext h hkeep
    rw [hp]
    simp
  · have hp : get_updatetime cs text st.update_time = (UPDATE_TIME_NEG, st.update_time) :=
      Prod.ext h hkeep
    rw [hp]
    simp

/-- C3, amended, at `update_time=xyz` and `update_time=-5` read with their
newline into the default configuration. -/
theorem load_config_line_update_time_rejected_witness :
    load_config_line true (bytes "update_time=" ++ bytes "xyz" ++ [10]) State.init =
      State.init.emit (Event.stderr WARN_UPDATE_TIME_NAN) ∧
    load_config_line true (bytes "update_time=" ++ bytes "-5" ++ [10]) State.init =
      State.init.emit (Event.stderr WARN_UPDATE_TIME_NEG) :=
  ⟨(load_config_line_update_time_rejected true State.init (bytes "xyz") [10] (Or.inr rfl)
      (by decide) (Or.inl (by decide))).1.trans (by decide),
   (load_config_line_update_time_rejected true State.init (bytes "-5") [10] (Or.inr rfl)
      (by decide) (Or.inr (by decide))).1.trans (by decide)⟩

/-! ## C9: the size of the path buffer -/

/-- C9: the `temp_len` bytes that `load_config` allocates hold the path
`<home_dir>/.local/share/<PACKAGE>/custom.ini` that `sprintf` stores and its
terminating NUL, for every home directory and every package name. -/
theorem custom_ini_path_fits_temp_len (home_dir PACKAGE : List Nat) :
    (custom_ini_path home_dir PACKAGE).length + 1 ≤ temp_len home_dir PACKAGE := by
  have h1 : (bytes "/.local/share/").length = 14 := by decide
  have h2 : (bytes "/custom.ini").length = 11 := by decide
  have h3 : (bytes "/.local/share/config.ini").length = 24 := by decide
  have h4 : (cstr PACKAGE).length ≤ PACKAGE.length := (List.takeWhile_sublist _).length_le
  simp only [custom_ini_path, temp_len, strlen, List.length_append, h1, h2, h3]
  omega

/-! ## C7, C8: two defects, evaluated -/

/-- The path through lines 211-232: when `sensors_init` succeeds on an opened
file, `main_sensors` closes the file exactly once more. -/
theorem main_sensors_closes_on_success (W : World) (contents : List Nat) (st : State)
    (h : W.sensors_init (some contents) = SUCCESS) :
    List.count (Event.fclose FileVar.sens_conf_file)
        (main_sensors W (some contents) st).state.trace =
      List.count (Event.fclose FileVar.sens_conf_file) st.trace + 1 := by
  by_cases hg : W.start_gui = SUCCESS <;> by_cases hc : W.fclose = SUCCESS <;>
    simp [main_sensors, h, hg, hc, State.emit, Control.state, List.count_append]

/-- The return of line 208: when `sensors_init` fails, `main_sensors` returns
`EXIT_FAILURE` and closes nothing. -/
theorem main_sensors_keeps_open_on_failure (W : World) (sens_conf_file : Option (List Nat))
    (st : State) (h : W.sensors_init sens_conf_file ≠ SUCCESS) :
    (main_sensors W sens_conf_file st).status = some EXIT_FAILURE ∧
    List.count (Event.fclose FileVar.sens_conf_file)
        (main_sensors W sens_conf_file st).state.trace =
      List.count (Event.fclose FileVar.sens_conf_file) st.trace := by
  by_cases hs : st.sens_config.isNone = true <;>
    simp [main_sensors, h, hs, State.emit, Control.state, Control.status, List.count_append]

/-- C7, the code at the failing input `-c /etc/sensors3.conf` with a readable
file and `sensors_init` returning 1: `main` opens the file, returns
`EXIT_FAILURE` by line 208, and has not closed the file. -/
theorem main_sensors_init_failure_leaves_file_open :
    (main (sample_world none (some (bytes "chip \"acpitz-*\"\n")) 1)
      [⟨99, bytes "/etc/sensors3.conf"⟩]).status = some EXIT_FAILURE ∧
    Event.fopen FileVar.sens_conf_file (bytes "/etc/sensors3.conf") true ∈
      (main (sample_world none (some (bytes "chip \"acpitz-*\"\n")) 1)
        [⟨99, bytes "/etc/sensors3.conf"⟩]).state.trace ∧
    List.count (Event.fclose FileVar.sens_conf_file)
      (main (sample_world none (some (bytes "chip \"acpitz-*\"\n")) 1)
        [⟨99, bytes "/etc/sensors3.conf"⟩]).state.trace = 0 := by
  decide

/-- C8, the code at a failing input: with `HOME` "/root" the buffer has 39
bytes, so `fgets` stores at most 38 characters per call; on a comment line
whose first 38 characters are followed by `update_time=5`, the second call
delivers `update_time=5` as a line of its own and `update_time` becomes 5, while
on the file without that line it stays 1. -/
theorem load_config_long_comment_line_sets_update_time :
    temp_len (bytes "/root") (bytes "xsensors") = 39 ∧
    char_at (bytes "; to refresh every five seconds, set: update_time=5\n") 0 = 59 ∧
    (load_config
      (sample_world (some (bytes "; to refresh every five seconds, set: update_time=5\n")) none 0)
      (bytes "/root") State.init).update_time = 5 ∧
    (load_config (sample_world (some []) none 0) (bytes "/root") State.init).update_time = 1 := by
  decide

/-! ## The option loop -/

/-- The loop over `pre ++ suf` is the loop over `pre`, continued over `suf` when
control comes out of `pre`. -/
theorem getopt_loop_append (W : World) (pre suf : List GetoptResult) (i : Nat) (st : State) :
    getopt_loop W i (pre ++ suf) st =
      match getopt_loop W i pre st with
      | Control.running st1 => getopt_loop W (i + pre.length) suf st1
      | Control.returned status st1 => Control.returned status st1
      | Control.crashed st1 => Control.crashed st1 := by
  induction pre generalizing i st with
  | nil => simp [getopt_loop]
  | cons r pre ih =>
    simp only [List.cons_append, getopt_loop, List.length_cons]
    cases h : main_switch W i r st with
    | running st1 =>
      have hlen : i + 1 + pre.length = i + (pre.length + 1) := by omega
      have := ih (i + 1) st1
      rw [hlen] at this
      exact this
    | returned status st1 => rfl
    | crashed st1 => rfl

/-- What one pass through the `switch` does to `update_time`, `tf` and
`sens_config` when control runs on. -/
theorem main_switch_running (W : World) (i : Nat) (r : GetoptResult) (st st1 : State)
    (h : main_switch W i r st = Control.running st1) :
    (st1.update_time =
      if r.c = 116 then (get_updatetime W.char_signed (cstr r.optarg) st.update_time).2
      else st.update_time) ∧
    (st1.tf = (st.tf || decide (r.c = 102))) ∧
    (st1.sens_config =
      if r.c = 99 then (if W.strdup_ok i then some (cstr r.optarg) else none)
      else st.sens_config) ∧
    (r.c = 116 → W.strdup_ok i = true) ∧
    r.c ≠ 104 ∧ r.c ≠ 118 ∧ r.c ≠ 63 := by
  unfold main_switch at h
  split_ifs at h with h1 h2 h3 h4 h5 h6 h7 h8 h9 h10
  all_goals first
    | (cases h; simp_all [State.emit])
    | (split at h <;> (cases h; simp_all [State.emit]))

/-- The loop keeps `update_time` when no `-t` is among the options. -/
theorem getopt_loop_keeps_update_time (W : World) (opts : List GetoptResult) (i : Nat)
    (st st1 : State) (hno : ∀ r ∈ opts, r.c ≠ 116)
    (h : getopt_loop W i opts st = Control.running st1) :
    st1.update_time = st.update_time := by
  induction opts generalizing i st with
  | nil =>
    simp only [getopt_loop, Control.running.injEq] at h
    rw [h]
  | cons r rest ih =>
    simp only [getopt_loop] at h
    cases hs : main_switch W i r st with
    | running st2 =>
      rw [hs] at h
      have h2 := (main_switch_running W i r st st2 hs).1
      rw [if_neg (hno r (List.mem_cons_self _ _))] at h2
      rw [ih (i + 1) st2 (fun q hq => hno q (List.mem_cons_of_mem _ hq)) h, h2]
    | returned status st2 => simp [hs] at h
    | crashed st2 => simp [hs] at h

/-- The loop keeps `sens_config` when no `-c` is among the options. -/
theorem getopt_loop_keeps_sens_config (W : World) (opts : List GetoptResult) (i : Nat)
    (st st1 : State) (hno : ∀ r ∈ opts, r.c ≠ 99)
    (h : getopt_loop W i opts st = Control.running st1) :
    st1.sens_config = st.sens_config := by
  induction opts generalizing i st with
  | nil =>
    simp only [getopt_loop, Control.running.injEq] at h
    rw [h]
  | cons r rest ih =>
    simp only [getopt_loop] at h
    cases hs : main_switch W i r st with
    | running st2 =>
      rw [hs] at h
      have h2 := (main_switch_running W i r st st2 hs).2.2.1
      rw [if_neg (hno r (List.mem_cons_self _ _))] at h2
      rw [ih (i + 1) st2 (fun q hq => hno q (List.mem_cons_of_mem _ hq)) h, h2]
    | returned status st2 => simp [hs] at h
    | crashed st2 => simp [hs] at h

/-- After a loop that ran to its end, `tf` is set exactly when it was set before
or `-f` is among the options. -/
theorem getopt_loop_tf (W : World) (opts : List GetoptResult) (i : Nat)
    (st st1 : State) (h : getopt_loop W i opts st = Control.running st1) :
    st1.tf = true ↔ st.tf = true ∨ ∃ r ∈ opts, r.c = 102 := by
  induction opts generalizing i st with
  | nil =>
    simp only [getopt_loop, Control.running.injEq] at h
    simp [h]
  | cons r rest ih =>
    simp only [getopt_loop] at h
    cases hs : main_switch W i r st with
    | running st2 =>
      rw [hs] at h
      have h2 := (main_switch_running W i r st st2 hs).2.1
      rw [ih (i + 1) st2 h, h2]
      simp only [Bool.or_eq_true, decide_eq_true_eq, List.mem_cons, exists_eq_or_imp]
      tauto
    | returned status st2 => simp [hs] at h
    | crashed st2 => simp [hs] at h

/-- A loop that runs to its end over `pre ++ r :: post` runs to the end of
`pre`, through `r`, and to the end of `post`. -/
theorem getopt_loop_split (W : World) (pre post : List GetoptResult) (r : GetoptResult)
    (st0 st : State) (h : getopt_loop W 0 (pre ++ r :: post) st0 = Control.running st) :
    ∃ st1 st2, getopt_loop W 0 pre st0 = Control.running st1 ∧
      main_switch W pre.length r st1 = Control.running st2 ∧
      getopt_loop W (pre.length + 1) post st2 = Control.running st := by
  rw [getopt_loop_append] at h
  cases h1 : getopt_loop W 0 pre st0 with
  | running st1 =>
    rw [h1] at h
    simp only [getopt_loop, Nat.zero_add] at h
    cases h2 : main_switch W pre.length r st1 with
    | running st2 =>
      rw [h2] at h
      exact ⟨st1, st2, rfl, h2, h⟩
    | returned status st2 => simp [h2] at h
    | crashed st2 => simp [h2] at h
  | returned status st1 => simp [h1] at h
  | crashed st1 => simp [h1] at h

/-! ## C4: the last `-t` wins -/

/-- C4: whatever the persisted configuration file holds, when the option loop
runs to its end over options whose last `-t` has an argument that
`get_updatetime` accepts with value `v`, `update_time` is `v` afterwards. -/
theorem last_t_option_sets_update_time (W : World) (home_dir : List Nat)
    (pre post : List GetoptResult) (text : List Nat) (u v : Int) (st : State)
    (hacc : get_updatetime W.char_signed text u = (UPDATE_TIME_SUCCESS, v))
    (hlast : ∀ r ∈ post, r.c ≠ 116)
    (hrun : getopt_loop W 0 (pre ++ ⟨116, text⟩ :: post) (load_config W home_dir State.init) =
      Control.running st) :
    st.update_time = v := by
  obtain ⟨st1, st2, _, h2, h3⟩ := getopt_loop_split W pre post ⟨116, text⟩ _ st hrun
  have hsw := (main_switch_running W pre.length ⟨116, text⟩ st1 st2 h2).1
  simp only [if_true, get_updatetime_cstr] at hsw
  rw [get_updatetime_accepts_any_prior W.char_signed text u st1.update_time v hacc] at hsw
  rw [getopt_loop_keeps_update_time W post _ st2 st hlast h3, hsw]

/-- C4, at the example of section 8: the file sets `update_time=30`, the command
line is `-t 5`, and `update_time` is 5; the file alone gives 30. -/
theorem last_t_option_sets_update_time_witness :
    (load_config (sample_world (some (bytes "update_time=30\n")) none 0) (bytes "/root")
      State.init).update_time = 30 ∧
    (getopt_loop (sample_world (some (bytes "update_time=30\n")) none 0) 0
      ([] ++ ⟨116, bytes "5"⟩ :: [])
      (load_config (sample_world (some (bytes "update_time=30\n")) none 0) (bytes "/root")
        State.init)).state.update_time = 5 :=
  ⟨by decide,
   last_t_option_sets_update_time (sample_world (some (bytes "update_time=30\n")) none 0)
     (bytes "/root") [] [] (bytes "5") 1 5
     (getopt_loop (sample_world (some (bytes "update_time=30\n")) none 0) 0
       ([] ++ ⟨116, bytes "5"⟩ :: [])
       (load_config (sample_world (some (bytes "update_time=30\n")) none 0) (bytes "/root")
         State.init)).state
     (by decide) (by simp) (by decide)⟩

/-! ## C5: the Fahrenheit flag -/

theorem load_config_loop_eq_foldl (cs : Bool) (n fuel : Nat) (stream : List Nat) (st : State) :
    load_config_loop cs n fuel stream st =
      (fgets_lines n fuel stream).foldl (fun s temp_str => load_config_line cs temp_str s) st := by
  induction fuel generalizing stream st with
  | zero => rfl
  | succ fuel ih =>
    simp only [load_config_loop, fgets_lines]
    cases h : fgets n stream with
    | none => rfl
    | some p =>
      obtain ⟨temp_str, rest⟩ := p
      simp only [List.foldl_cons]
      exact ih rest _

/-- Comparison with a literal of `n` characters: `strncmp` returns 0 exactly when
the first `n` bytes of the array are the literal. -/
theorem strncmp_eq_zero_iff (n : Nat) (a b : List Nat) (hb : b.length = n)
    (h0 : ∀ x ∈ b, x ≠ 0) : strncmp n a b = 0 ↔ a.take n = b := by
  induction n generalizing a b with
  | zero =>
    have : b = [] := List.length_eq_zero.mp hb
    simp [strncmp, this]
  | succ n ih =>
    match b, hb, h0 with
    | y :: b1, hb, h0 =>
      have hy : y ≠ 0 := h0 y (List.mem_cons_self _ _)
      have hb1 : b1.length = n := by simpa using hb
      have h01 : ∀ x ∈ b1, x ≠ 0 := fun x hx => h0 x (List.mem_cons_of_mem _ hx)
      match a with
      | [] =>
        simp only [strncmp, List.headD_nil, List.headD_cons, List.take_nil]
        rw [if_pos (Ne.symm hy)]
        constructor
        · intro h
          exfalso
          omega
        · intro h
          cases h
      | x :: a1 =>
        simp only [strncmp, List.headD_cons, List.tail_cons, List.take_succ_cons, List.cons.injEq]
        by_cases hxy : x = y
        · subst hxy
          simp only [ne_eq, not_true_eq_false, if_false, if_neg hy, true_and]
          exact ih a1 b1 hb1 h01
        · rw [if_pos hxy]
          constructor
          · intro h
            exfalso
            omega
          · intro h
            exact absurd h.1 hxy

theorem take_succ_eq_append_iff (n : Nat) (t l : List Nat) (c : Nat) (hl : l.length = n)
    (hc : c ≠ 0) : t.take (n + 1) = l ++ [c] ↔ t.take n = l ∧ t.getD n 0 = c := by
  induction n generalizing t l with
  | zero =>
    have : l = [] := List.length_eq_zero.mp hl
    subst this
    cases t with
    | nil => simpa using Ne.symm hc
    | cons x t1 => simp
  | succ n ih =>
    match l, hl with
    | y :: l1, hl =>
      have hl1 : l1.length = n := by simpa using hl
      cases t with
      | nil => simp
      | cons x t1 =>
        simp only [List.take_succ_cons, List.cons_append, List.cons.injEq, List.getD_cons_succ]
        rw [ih t1 l1 hl1]
        tauto

/-- The three conditions of lines 99-102 under which `tf = TRUE` is executed
hold exactly when the buffer starts with `use_fahrenheit=1`. -/
theorem sets_tf_iff (temp_str : List Nat) :
    ((char_at temp_str 0 ≠ 91 ∧ char_at temp_str 0 ≠ 59) ∧
      (strlen temp_str > 15 ∧ strncmp 15 temp_str (bytes "use_fahrenheit=") = 0) ∧
      char_at temp_str 15 = 49) ↔ temp_str.take 16 = bytes "use_fahrenheit=1" := by
  have hlit : bytes "use_fahrenheit=1" = bytes "use_fahrenheit=" ++ [49] := by decide
  have hcmp := strncmp_eq_zero_iff 15 temp_str (bytes "use_fahrenheit=") (by decide) (by decide)
  have hstart := take_succ_eq_append_iff 15 temp_str (bytes "use_fahrenheit=") 49 (by decide)
    (by decide)
  constructor
  · rintro ⟨_, ⟨_, hq⟩, hr⟩
    rw [hlit, hstart]
    exact ⟨hcmp.mp hq, hr⟩
  · intro h
    have ht : temp_str = bytes "use_fahrenheit=1" ++ temp_str.drop 16 := by
      conv_lhs => rw [← List.take_append_drop 16 temp_str, h]
    have hl16 : bytes "use_fahrenheit=1" =
        [117, 115, 101, 95, 102, 97, 104, 114, 101, 110, 104, 101, 105, 116, 61, 49] := by
      decide
    rw [ht, hl16]
    simp [char_at, strlen, cstr, List.takeWhile, strncmp, bytes_use_fahrenheit]

/-- The loop body sets `tf` exactly when the buffer starts with
`use_fahrenheit=1`; it never clears it. -/
theorem load_config_line_tf (cs : Bool) (temp_str : List Nat) (st : State) :
    (load_config_line cs temp_str st).tf = true ↔
      st.tf = true ∨ temp_str.take 16 = bytes "use_fahrenheit=1" := by
  rw [← sets_tf_iff]
  unfold load_config_line
  by_cases hP : char_at temp_str 0 ≠ 91 ∧ char_at temp_str 0 ≠ 59
  · rw [if_pos hP]
    by_cases hQ : strlen temp_str > 15 ∧ strncmp 15 temp_str (bytes "use_fahrenheit=") = 0
    · rw [if_pos hQ]
      by_cases hR : char_at temp_str 15 = 49
      · simp [hR, hQ, hP]
      · rw [if_neg hR]
        split_ifs <;> simp [State.emit, hR]
    · rw [if_neg hQ]
      split_ifs
      · split <;> simp [State.emit, hQ]
      · simp [hQ]
  · rw [if_neg hP]
    simp [hP]

theorem foldl_load_config_line_tf (cs : Bool) (lines : List (List Nat)) (st : State) :
    (lines.foldl (fun s temp_str => load_config_line cs temp_str s) st).tf = true ↔
      st.tf = true ∨ ∃ temp_str ∈ lines, temp_str.take 16 = bytes "use_fahrenheit=1" := by
  induction lines generalizing st with
  | nil => simp
  | cons b rest ih =>
    simp only [List.foldl_cons, List.mem_cons, exists_eq_or_imp]
    rw [ih, load_config_line_tf]
    tauto

/-- After `load_config` from the initial state, `tf` is set exactly when the
file could be opened and one of the buffers `fgets` delivered starts with
`use_fahrenheit=1`. -/
theorem load_config_tf (W : World) (home_dir : List Nat) :
    (load_config W home_dir State.init).tf = true ↔
      ∃ contents, W.files (custom_ini_path home_dir W.PACKAGE) = some contents ∧
        ∃ temp_str ∈ fgets_lines (temp_len home_dir W.PACKAGE) (contents.length + 1) contents,
          temp_str.take 16 = bytes "use_fahrenheit=1" := by
  cases h : W.files (custom_ini_path home_dir W.PACKAGE) with
  | none => simp [load_config, h, State.emit, State.init]
  | some contents =>
    have hfold : (load_config W home_dir State.init).tf =
        ((fgets_lines (temp_len home_dir W.PACKAGE) (contents.length + 1) contents).foldl
          (fun s temp_str => load_config_line W.char_signed temp_str s)
          (State.init.emit
            (Event.fopen FileVar.fileconf (custom_ini_path home_dir W.PACKAGE) true))).tf := by
      simp [load_config, h, State.emit, load_config_loop_eq_foldl]
    rw [hfold, foldl_load_config_line_tf]
    simp [State.init, State.emit]

/-- C5: when the option loop runs to its end, `tf` is true afterwards exactly
when `load_config` read a line starting with `use_fahrenheit=1` from the
persisted configuration file or `-f` is among the options. -/
theorem tf_after_config_and_options (W : World) (home_dir : List Nat)
    (opts : List GetoptResult) (st : State)
    (hrun : getopt_loop W 0 opts (load_config W home_dir State.init) = Control.running st) :
    st.tf = true ↔
      (∃ contents, W.files (custom_ini_path home_dir W.PACKAGE) = some contents ∧
        ∃ temp_str ∈ fgets_lines (temp_len home_dir W.PACKAGE) (contents.length + 1) contents,
          temp_str.take 16 = bytes "use_fahrenheit=1") ∨
      ∃ r ∈ opts, r.c = 102 := by
  rw [getopt_loop_tf W opts 0 _ st hrun, load_config_tf]

/-- C5, at the example of section 8: the file holds `use_fahrenheit=1`, the
command line is `-t 5` without `-f`, and `tf` is true after the loop. -/
theorem tf_after_config_and_options_witness :
    (getopt_loop (sample_world (some (bytes "use_fahrenheit=1\n")) none 0) 0 [⟨116, bytes "5"⟩]
      (load_config (sample_world (some (bytes "use_fahrenheit=1\n")) none 0) (bytes "/root")
        State.init)).state.tf = true :=
  (tf_after_config_and_options (sample_world (some (bytes "use_fahrenheit=1\n")) none 0)
    (bytes "/root") [⟨116, bytes "5"⟩]
    (getopt_loop (sample_world (some (bytes "use_fahrenheit=1\n")) none 0) 0 [⟨116, bytes "5"⟩]
      (load_config (sample_world (some (bytes "use_fahrenheit=1\n")) none 0) (bytes "/root")
        State.init)).state
    (by decide)).mpr
    (Or.inl ⟨bytes "use_fahrenheit=1\n", by decide, bytes "use_fahrenheit=1\n", by decide,
      by decide⟩)

/-! ## The fuel of the read loop is enough -/

theorem fgets_chars_length_pos (k : Nat) (stream : List Nat) (hk : 0 < k) (hs : stream ≠ []) :
    0 < (fgets_chars k stream).length := by
  match k, stream, hk, hs with
  | k + 1, c :: rest, _, _ =>
    simp only [fgets_chars]
    split <;> simp

/-- With a buffer of at least two bytes every successful `fgets` consumes at
least one character of the stream. -/
theorem fgets_rest_shorter (n : Nat) (stream temp_str rest : List Nat) (hn : 2 ≤ n)
    (h : fgets n stream = some (temp_str, rest)) : rest.length < stream.length := by
  unfold fgets at h
  split_ifs at h with h1
  simp only [Option.some.injEq, Prod.mk.injEq] at h
  have hs : stream ≠ [] := fun hs => h1 (Or.inr hs)
  have hpos := fgets_chars_length_pos (n - 1) stream (by omega) hs
  have hlen : 0 < stream.length := List.length_pos.mpr hs
  rw [← h.2, List.length_drop]
  omega

/-- The loop of `load_config` ends by `fgets` returning `NULL`, not by the fuel:
with more iterations than the stream has characters, further fuel changes
nothing (`temp_len` is at least 26). -/
theorem load_config_loop_enough_fuel (cs : Bool) (n fuel k : Nat) (stream : List Nat)
    (st : State) (hn : 2 ≤ n) (hf : stream.length < fuel) :
    load_config_loop cs n (fuel + k) stream st = load_config_loop cs n fuel stream st := by
  induction fuel generalizing stream st with
  | zero => omega
  | succ fuel ih =>
    have hk : fuel + 1 + k = (fuel + k) + 1 := by omega
    rw [hk]
    simp only [load_config_loop]
    cases h : fgets n stream with
    | none => rfl
    | some p =>
      obtain ⟨temp_str, rest⟩ := p
      have := fgets_rest_shorter n stream temp_str rest hn h
      exact ih rest _ (by omega)

theorem temp_len_ge (home_dir PACKAGE : List Nat) : 26 ≤ temp_len home_dir PACKAGE := by
  have h3 : (bytes "/.local/share/config.ini").length = 24 := by decide
  simp only [temp_len, h3]
  omega

/-- The number of iterations `load_config` allows its loop is enough: any larger
number gives the same state. -/
theorem load_config_fuel_enough (W : World) (home_dir contents : List Nat) (st : State)
    (k : Nat) :
    load_config_loop W.char_signed (temp_len home_dir W.PACKAGE) (contents.length + 1 + k)
        contents st =
      load_config_loop W.char_signed (temp_len home_dir W.PACKAGE) (contents.length + 1)
        contents st :=
  load_config_loop_enough_fuel _ _ _ k contents st
    (Nat.le_trans (by decide) (temp_len_ge home_dir W.PACKAGE)) (Nat.lt_succ_self _)

/-! ## C6: exits before the sensor library and the GUI are started -/

theorem startup_calls_emit (st : State) (e : Event) (h : e.is_startup = false) :
    startup_calls (st.emit e) = startup_calls st := by
  simp [startup_calls, State.emit, List.filter_append, h]

theorem startup_calls_load_config_line (cs : Bool) (temp_str : List Nat) (st : State) :
    startup_calls (load_config_line cs temp_str st) = startup_calls st := by
  unfold load_config_line
  split_ifs
  · rfl
  · simp [startup_calls, State.emit, Event.is_startup]
  · rfl
  · split <;> simp [startup_calls, State.emit, Event.is_startup]
  · rfl
  · rfl

theorem startup_calls_load_config (W : World) (home_dir : List Nat) (st : State) :
    startup_calls (load_config W home_dir st) = startup_calls st := by
  have hfold : ∀ (lines : List (List Nat)) (s : State),
      startup_calls (lines.foldl (fun s temp_str => load_config_line W.char_signed temp_str s) s) =
        startup_calls s := by
    intro lines
    induction lines with
    | nil => intro s; rfl
    | cons b rest ih =>
      intro s
      simp only [List.foldl_cons]
      rw [ih, startup_calls_load_config_line]
  cases h : W.files (custom_ini_path home_dir W.PACKAGE) with
  | none =>
    simp only [load_config, h]
    exact startup_calls_emit _ _ rfl
  | some contents =>
    simp only [load_config, h, load_config_loop_eq_foldl]
    rw [startup_calls_emit _ (Event.fclose FileVar.fileconf) rfl, hfold,
      startup_calls_emit _ (Event.fopen FileVar.fileconf _ true) rfl]

theorem startup_calls_main_switch (W : World) (i : Nat) (r : GetoptResult) (st : State) :
    startup_calls (main_switch W i r st).state = startup_calls st := by
  unfold main_switch
  split_ifs
  all_goals first
    | rfl
    | (simp [startup_calls, State.emit, Event.is_startup, Control.state, help_msg]; done)
    | (split <;> simp [startup_calls, State.emit, Event.is_startup, Control.state])

theorem startup_calls_getopt_loop (W : World) (opts : List GetoptResult) (i : Nat) (st : State) :
    startup_calls (getopt_loop W i opts st).state = startup_calls st := by
  induction opts generalizing i st with
  | nil => rfl
  | cons r rest ih =>
    simp only [getopt_loop]
    have hsw := startup_calls_main_switch W i r st
    cases h : main_switch W i r st with
    | running st1 =>
      rw [h] at hsw
      rw [ih (i + 1) st1, ← hsw]
      rfl
    | returned status st1 =>
      rw [h] at hsw
      simpa using hsw
    | crashed st1 =>
      rw [h] at hsw
      simpa using hsw

/-- C6: once the home directory is resolved, (1) when the option loop gets
through the options `pre` and `getopt` then returns `-h` or `-v`, `main` returns
`EXIT_SUCCESS`; (2) when the option loop runs to its end, the last `-c` was
copied and its path cannot be opened for reading, `main` returns `EXIT_FAILURE`
and the last thing it did was to write `Error opening config file: <path>` to
the error stream; in both cases the run contains no call of `sensors_init`,
`gtk_init`, `gtk_dialog_run` or `start_gui`. -/
theorem main_returns_before_startup (W : World) (home_dir : List Nat)
    (hhome : resolve_home_dir W = some home_dir) :
    (∀ (pre post : List GetoptResult) (r : GetoptResult) (st : State),
      getopt_loop W 0 pre (load_config W home_dir State.init) = Control.running st →
      (r.c = 104 ∨ r.c = 118) →
      (main W (pre ++ r :: post)).status = some EXIT_SUCCESS ∧
      startup_calls (main W (pre ++ r :: post)).state = []) ∧
    (∀ (pre post : List GetoptResult) (optarg : List Nat) (st : State),
      getopt_loop W 0 (pre ++ ⟨99, optarg⟩ :: post) (load_config W home_dir State.init) =
        Control.running st →
      W.strdup_ok pre.length = true →
      (∀ r ∈ post, r.c ≠ 99) →
      W.files (cstr optarg) = none →
      (main W (pre ++ ⟨99, optarg⟩ :: post)).status = some EXIT_FAILURE ∧
      (∃ tr, (main W (pre ++ ⟨99, optarg⟩ :: post)).state.trace =
        tr ++ [Event.stderr (bytes "Error opening config file: " ++ cstr optarg ++ bytes "\n")]) ∧
      startup_calls (main W (pre ++ ⟨99, optarg⟩ :: post)).state = []) := by
  have hinit : startup_calls (load_config W home_dir State.init) = [] := by
    rw [startup_calls_load_config]
    rfl
  constructor
  · intro pre post r st hpre hr
    have hst : startup_calls st = [] := by
      have := startup_calls_getopt_loop W pre 0 (load_config W home_dir State.init)
      rw [hpre, hinit] at this
      exact this
    have hloop : getopt_loop W 0 (pre ++ r :: post) (load_config W home_dir State.init) =
        main_switch W pre.length r st := by
      rw [getopt_loop_append, hpre]
      simp only [getopt_loop, Nat.zero_add]
      rcases hr with hr | hr <;> simp [main_switch, hr, help_msg, SUCCESS]
    have hsw : ∃ st1, main_switch W pre.length r st = Control.returned EXIT_SUCCESS st1 := by
      rcases hr with hr | hr <;> simp [main_switch, hr, help_msg, SUCCESS]
    obtain ⟨st1, hst1⟩ := hsw
    have hcalls := startup_calls_main_switch W pre.length r st
    rw [hst1] at hcalls
    simp only [Control.state] at hcalls
    simp only [main, hhome, hloop, hst1, Control.status, Control.state, hcalls, hst, and_self]
  · intro pre post optarg st hrun hdup hlast hopen
    obtain ⟨st1, st2, h1, h2, h3⟩ := getopt_loop_split W pre post ⟨99, optarg⟩ _ st hrun
    have hsens : st.sens_config = some (cstr optarg) := by
      rw [getopt_loop_keeps_sens_config W post _ st2 st hlast h3,
        (main_switch_running W pre.length ⟨99, optarg⟩ st1 st2 h2).2.2.1]
      simp [hdup]
    have hst : startup_calls st = [] := by
      have := startup_calls_getopt_loop W (pre ++ ⟨99, optarg⟩ :: post) 0
        (load_config W home_dir State.init)
      rw [hrun, hinit] at this
      exact this
    simp only [main, hhome, hrun, main_startup, hsens, hopen, Control.status, Control.state]
    refine ⟨trivial, ⟨_, rfl⟩, ?_⟩
    rw [startup_calls_emit _ (Event.stderr _) rfl,
      startup_calls_emit _ (Event.fopen FileVar.sens_conf_file _ false) rfl, hst]

/-- C6, at `-t 5 -h`, `-v`, and `-c /nonexistent/path`. -/
theorem main_returns_before_startup_witness :
    (main (sample_world none none 0) ([⟨116, bytes "5"⟩] ++ ⟨104, []⟩ :: [])).status =
      some EXIT_SUCCESS ∧
    (main (sample_world none none 0) ([] ++ ⟨118, []⟩ :: [])).status = some EXIT_SUCCESS ∧
    (main (sample_world none none 0) ([] ++ ⟨99, bytes "/nonexistent/path"⟩ :: [])).status =
      some EXIT_FAILURE ∧
    startup_calls
      (main (sample_world none none 0) ([] ++ ⟨99, bytes "/nonexistent/path"⟩ :: [])).state = [] :=
  ⟨((main_returns_before_startup (sample_world none none 0) (bytes "/root") rfl).1
      [⟨116, bytes "5"⟩] [] ⟨104, []⟩
      (getopt_loop (sample_world none none 0) 0 [⟨116, bytes "5"⟩]
        (load_config (sample_world none none 0) (bytes "/root") State.init)).state
      (by decide) (Or.inl rfl)).1,
   ((main_returns_before_startup (sample_world none none 0) (bytes "/root") rfl).1
      [] [] ⟨118, []⟩
      (getopt_loop (sample_world none none 0) 0 []
        (load_config (sample_world none none 0) (bytes "/root") State.init)).state
      (by decide) (Or.inr rfl)).1,
   ((main_returns_before_startup (sample_world none none 0) (bytes "/root") rfl).2
      [] [] (bytes "/nonexistent/path")
      (getopt_loop (sample_world none none 0) 0 ([] ++ ⟨99, bytes "/nonexistent/path"⟩ :: [])
        (load_config (sample_world none none 0) (bytes "/root") State.init)).state
      (by decide) (by decide) (by simp) (by decide)).1,
   ((main_returns_before_startup (sample_world none none 0) (bytes "/root") rfl).2
      [] [] (bytes "/nonexistent/path")
      (getopt_loop (sample_world none none 0) 0 ([] ++ ⟨99, bytes "/nonexistent/path"⟩ :: [])
        (load_config (sample_world none none 0) (bytes "/root") State.init)).state
      (by decide) (by decide) (by simp) (by decide)).2.2⟩

/-! ## C10: the same value from the file and from the command line -/

/-- C10, refuted as stated: with `HOME` "/root" the buffer has 39 bytes; the
line `update_time=` followed by 26 zeros and a 5 is cut after the zeros, which
are not a valid number, so the file leaves `update_time` at 1, while `-t` with
the same text sets it to 5. -/
theorem update_time_long_text_file_differs_from_option :
    is_decimal_integer (bytes "000000000000000000000000005") = true ∧
    (load_config (sample_world (some (bytes "update_time=000000000000000000000000005\n")) none 0)
      (bytes "/root") State.init).update_time = 1 ∧
    (getopt_loop (sample_world none none 0) 0 [⟨116, bytes "000000000000000000000000005"⟩]
      State.init).state.update_time = 5 := by
  decide

theorem is_decimal_integer_chars (text : List Nat) (h : is_decimal_integer text = true) :
    text ≠ [] ∧ ∀ c ∈ text, c = 45 ∨ isdigit c = true := by
  unfold is_decimal_integer at h
  split at h
  · simp only [Bool.and_eq_true, List.all_eq_true] at h
    refine ⟨by simp, ?_⟩
    intro c hc
    rcases List.mem_cons.mp hc with hc | hc
    · exact Or.inl hc
    · exact Or.inr (h.2 c hc)
  · simp only [Bool.and_eq_true, List.all_eq_true, Bool.not_eq_true', List.isEmpty_eq_false_iff_exists_mem] at h
    refine ⟨?_, fun c hc => Or.inr (h.2 c hc)⟩
    intro hnil
    obtain ⟨x, hx⟩ := h.1
    rw [hnil] at hx
    cases hx

/-- A stretch without newline that fits the buffer is stored whole, and `fgets`
goes on with what follows it. -/
theorem fgets_chars_append (k : Nat) (l rest : List Nat) (hl : ∀ c ∈ l, c ≠ 10)
    (hk : l.length ≤ k) :
    fgets_chars k (l ++ rest) = l ++ fgets_chars (k - l.length) rest := by
  induction l generalizing k with
  | nil => simp
  | cons c l ih =>
    match k, hk with
    | k + 1, hk =>
      have hc : c ≠ 10 := hl c (List.mem_cons_self _ _)
      simp only [List.cons_append, fgets_chars, if_neg hc, List.length_cons, Nat.add_sub_add_right,
        List.cons.injEq, true_and]
      exact ih k (fun x hx => hl x (List.mem_cons_of_mem _ hx)) (by simpa using hk)

/-- The value the loop body leaves in `update_time` for a buffer that holds
`update_time=` and at least one more character. -/
theorem load_config_line_update_time_value (cs : Bool) (rest : List Nat) (st : State)
    (hne : char_at rest 0 ≠ 0) :
    (load_config_line cs (bytes "update_time=" ++ rest) st).update_time =
      (get_updatetime cs rest st.update_time).2 := by
  rw [load_config_line_update_time cs rest st hne]
  rcases hg : get_updatetime cs rest st.update_time with ⟨r, u⟩
  cases r <;> simp [State.emit]

/-- The loop body ignores a buffer that holds only a newline. -/
theorem load_config_line_newline (cs : Bool) (st : State) :
    load_config_line cs [10] st = st := by
  simp [load_config_line, char_at, strlen, cstr, List.takeWhile]

theorem fgets_chars_nil (k : Nat) : fgets_chars k [] = [] := by
  cases k <;> rfl

theorem load_config_loop_nil (cs : Bool) (n fuel : Nat) (st : State) :
    load_config_loop cs n fuel [] st = st := by
  cases fuel <;> simp [load_config_loop, fgets]

theorem load_config_loop_step (cs : Bool) (n fuel : Nat) (stream temp_str rest : List Nat)
    (st : State) (h : fgets n stream = some (temp_str, rest)) :
    load_config_loop cs n (fuel + 1) stream st =
      load_config_loop cs n fuel rest (load_config_line cs temp_str st) := by
  simp only [load_config_loop, h]

/-- The read loop on a file that holds one line `l`, with or without its newline,
when `l` fits the buffer: the loop body runs on `l` (with the newline when that
fits too), and nothing else changes the state. -/
theorem load_config_loop_single_line (cs : Bool) (n fuel : Nat) (l nl : List Nat) (st : State)
    (hl : ∀ c ∈ l, c ≠ 10) (hne : l ≠ []) (hfit : l.length < n)
    (hnl : nl = [] ∨ nl = [10]) (hfuel : 2 ≤ fuel) :
    ∃ nl1, (nl1 = [] ∨ nl1 = [10]) ∧
      load_config_loop cs n fuel (l ++ nl) st = load_config_line cs (l ++ nl1) st := by
  obtain ⟨f, rfl⟩ : ∃ f, fuel = f + 2 := ⟨fuel - 2, by omega⟩
  have hn : ¬ (n = 0 ∨ l ++ nl = []) := by
    intro h
    rcases h with h | h
    · omega
    · exact hne (List.append_eq_nil.mp h).1
  have hchunk := fgets_chars_append (n - 1) l nl hl (by omega)
  rcases hnl with h | h
  · subst h
    refine ⟨[], Or.inl rfl, ?_⟩
    rw [fgets_chars_nil] at hchunk
    simp only [List.append_nil] at hchunk hn ⊢
    have hfg : fgets n l = some (l, []) := by
      simp only [fgets, if_neg hn, hchunk, List.drop_length]
    rw [load_config_loop_step cs n (f + 1) l l [] st hfg, load_config_loop_nil]
  · subst h
    by_cases hd : n - 1 - l.length = 0
    · refine ⟨[], Or.inl rfl, ?_⟩
      rw [hd] at hchunk
      simp only [fgets_chars, List.append_nil] at hchunk
      have hfg : fgets n (l ++ [10]) = some (l, [10]) := by
        simp only [fgets, if_neg hn, hchunk, List.drop_left]
      have hn2 : ¬ (n = 0 ∨ [10] = ([] : List Nat)) := by
        intro h
        rcases h with h | h
        · omega
        · cases h
      have hone : fgets_chars (n - 1) [10] = [10] := by
        obtain ⟨m, hm⟩ : ∃ m, n - 1 = m + 1 := ⟨n - 2, by
          have := List.length_pos.mpr hne
          omega⟩
        rw [hm]
        simp [fgets_chars]
      have hfg2 : fgets n [10] = some ([10], []) := by
        simp only [fgets, if_neg hn2, hone, List.length_singleton, List.drop_one, List.tail_cons]
      rw [load_config_loop_step cs n (f + 1) _ l [10] st hfg,
        load_config_loop_step cs n f _ [10] [] _ hfg2, load_config_loop_nil,
        load_config_line_newline, List.append_nil]
    · refine ⟨[10], Or.inr rfl, ?_⟩
      obtain ⟨m, hm⟩ : ∃ m, n - 1 - l.length = m + 1 := ⟨n - 1 - l.length - 1, by omega⟩
      rw [hm] at hchunk
      simp only [fgets_chars, if_true] at hchunk
      have hfg : fgets n (l ++ [10]) = some (l ++ [10], []) := by
        simp only [fgets, if_neg hn, hchunk, List.drop_length]
      rw [load_config_loop_step cs n (f + 1) _ (l ++ [10]) [] st hfg, load_config_loop_nil]

/-- C10, amended: when the value text is a decimal integer that fits the read
buffer after `update_time=` (its line, without the newline, has fewer than
`temp_len` characters), `load_config` on a file holding only the line
`update_time=<text>`, with or without newline, leaves the same `update_time`
as the option loop on `-t <text>`, both from the initial configuration. -/
theorem update_time_file_eq_option (W : World) (home_dir text nl : List Nat)
    (hdec : is_decimal_integer text = true) (hnl : nl = [] ∨ nl = [10])
    (hfit : 12 + text.length < temp_len home_dir W.PACKAGE)
    (hfile : W.files (custom_ini_path home_dir W.PACKAGE) =
      some (bytes "update_time=" ++ text ++ nl))
    (hdup : W.strdup_ok 0 = true) :
    (load_config W home_dir State.init).update_time =
      (getopt_loop W 0 [⟨116, text⟩] State.init).state.update_time := by
  obtain ⟨hne, hchars⟩ := is_decimal_integer_chars text hdec
  have hno10 : ∀ c ∈ bytes "update_time=" ++ text, c ≠ 10 := by
    intro c hc
    rcases List.mem_append.mp hc with hc | hc
    · rw [bytes_update_time] at hc
      intro h10
      subst h10
      simp at hc
    · rcases hchars c hc with h | h
      · omega
      · intro h10
        subst h10
        simp [isdigit] at h
  have hhead : ∀ nl1, char_at (text ++ nl1) 0 ≠ 0 := by
    intro nl1
    match text, hne, hchars with
    | c :: r, _, hchars =>
      simp only [List.cons_append, char_at, List.getD_cons_zero]
      rcases hchars c (List.mem_cons_self _ _) with h | h
      · omega
      · intro h0
        subst h0
        simp [isdigit] at h
  have hlen : (bytes "update_time=").length = 12 := by decide
  obtain ⟨nl1, hnl1, hloop⟩ := load_config_loop_single_line W.char_signed
    (temp_len home_dir W.PACKAGE) ((bytes "update_time=" ++ text ++ nl).length + 1)
    (bytes "update_time=" ++ text) nl
    (State.init.emit (Event.fopen FileVar.fileconf (custom_ini_path home_dir W.PACKAGE) true))
    hno10 (by simp [bytes_update_time]) (by simp only [List.length_append, hlen]; omega) hnl
    (by simp only [List.length_append, hlen]; omega)
  have hsame : get_updatetime W.char_signed (text ++ nl1) 1 =
      get_updatetime W.char_signed text 1 := by
    rcases hnl1 with h | h
    · simp [h]
    · rw [h, get_updatetime_append_newline]
  have hL : (load_config W home_dir State.init).update_time =
      (get_updatetime W.char_signed text 1).2 := by
    simp only [load_config, hfile, hloop]
    simp only [State.emit]
    rw [List.append_assoc, load_config_line_update_time_value _ _ _ (hhead nl1)]
    simp only [State.init]
    rw [hsame]
  have hR : (getopt_loop W 0 [⟨116, text⟩] State.init).state.update_time =
      (get_updatetime W.char_signed text 1).2 := by
    simp only [getopt_loop, main_switch, hdup, get_updatetime_cstr, State.init]
    rcases hg : get_updatetime W.char_signed text 1 with ⟨r, u⟩
    cases r <;> simp [Control.state, State.emit]
  rw [hL, hR]

/-- C10, amended, at the text "5" with `HOME` "/root": file and option both give 5. -/
theorem update_time_file_eq_option_witness :
    (load_config (sample_world (some (bytes "update_time=" ++ bytes "5" ++ [10])) none 0)
      (bytes "/root") State.init).update_time = 5 ∧
    (getopt_loop (sample_world (some (bytes "update_time=" ++ bytes "5" ++ [10])) none 0) 0
      [⟨116, bytes "5"⟩] State.init).state.update_time = 5 :=
  ⟨(update_time_file_eq_option
      (sample_world (some (bytes "update_time=" ++ bytes "5" ++ [10])) none 0) (bytes "/root")
      (bytes "5") [10] (by decide) (Or.inr rfl) (by decide) (by decide) (by decide)).trans
      (by decide),
   by decide⟩

end Xsensors
